import Mathlib

/-!
Shallow embedding of the Workman Zed-extension command resolver
(`src/workman.rs`).  The resolver computes, from a host-supplied settings
document, an environment variable, a platform identifier, and a worktree
probe, the launch command for the Workman language server.

Host inputs are modelled explicitly:
* the settings document `LspSettings::for_worktree("workman-lsp", worktree)`
  becomes an `Option LspSettings` argument (`none` = the lookup failed);
* `env::var("WORKMAN_ROOT")` becomes an `Option String` argument;
* the worktree's `root_path`, `which`, `read_text_file` and `shell_env`
  become fields of a `Worktree` structure;
* `zed::current_platform().0` becomes an `Os` argument.

Rust `Result<T, String>` becomes `Except String T`.  `PathBuf` operations
(`Path::parent`, `Path::join`, `to_string_lossy`) are modelled on `String`
with Unix path semantics; on UTF-8 strings `PathBuf::from` followed by
`to_string_lossy().to_string()` is the identity, so string round-trips are
dropped.
-/

namespace Workman

/-- JSON-like values, as far as the resolver inspects them: it only ever
asks whether a value is a string (`Value::as_str`) and looks up keys of an
object (`Value::get`). -/
inductive Json where
  | str (s : String)
  | obj (fields : List (String × Json))
  | other

/-- First binding of a key in a JSON object's field list (serde_json maps
have unique keys, so first-match lookup is exact). -/
def lookupField (k : String) : List (String × Json) → Option Json
  | [] => none
  | (k', v) :: rest => if k' = k then some v else lookupField k rest

/-- `serde_json::Value::get(key)`: `some` only on an object containing the
key. -/
def Json.get (j : Json) (k : String) : Option Json :=
  match j with
  | .obj fields => lookupField k fields
  | _ => none

/-- `serde_json::Value::as_str`. -/
def Json.as_str : Json → Option String
  | .str s => some s
  | _ => none

/-- The `binary` sub-document of the LSP settings (fields the resolver
reads). -/
structure BinarySettings where
  path : Option String
  arguments : Option (List String)
deriving DecidableEq, Repr

/-- The settings document for the `workman-lsp` namespace (fields the
resolver reads: `binary`, and the free-form `settings` JSON value). -/
structure LspSettings where
  binary : Option BinarySettings
  settings : Option Json

/-- The worktree probe: project root path, PATH search, file read, and the
shell-derived environment. `read_text_file` returns `none` where the Rust
call returns `Err`. -/
structure Worktree where
  root_path : String
  which : String → Option String
  read_text_file : String → Option String
  shell_env : List (String × String)

/-- `zed::Os`: the platform identifier. -/
inductive Os where
  | mac
  | linux
  | windows
deriving DecidableEq, Repr

/-- `zed::Command`: the resolved launch command. -/
structure Command where
  command : String
  args : List String
  env : List (String × String)
deriving DecidableEq, Repr

/-!
Unix path model.  `trimTailRev` mirrors the normalization Rust's
`Components` performs at the *end* of a path (`trim_right`): trailing
separators and trailing `.` components are dropped (a lone leading `.`
survives because nothing precedes it to match the `'.' :: '/'` pattern).
The input is the reversed character list.
-/

/-- Drop trailing separators and trailing `.` components of a path given as
a reversed character list. -/
def trimTailRev : List Char → List Char
  | [] => []
  | '/' :: rest => trimTailRev rest
  | '.' :: '/' :: rest => trimTailRev ('/' :: rest)
  | c :: rest => c :: rest

/-- Drop trailing separators and trailing `.` components of a path. -/
def trimTail (cs : List Char) : List Char :=
  (trimTailRev cs.reverse).reverse

/-- `std::path::Path::parent` on Unix: the path minus its final component,
`none` for an empty path or the root. -/
def parentPath (p : String) : Option String :=
  let body := trimTail p.toList
  if body.isEmpty then
    none
  else
    let pre := (body.reverse.dropWhile (fun c => c ≠ '/')).reverse
    if pre.isEmpty then
      some ""
    else
      let pre2 := trimTail pre
      if pre2.isEmpty then some "/" else some (String.mk pre2)

/-- `std::path::Path::join` on Unix: an absolute argument replaces the
base; otherwise a separator is inserted unless the base is empty or already
ends in one. -/
def pathJoin (base p : String) : String :=
  if p.toList.head? = some '/' then p
  else if base = "" then p
  else if base.toList.reverse.head? = some '/' then base ++ p
  else base ++ "/" ++ p

/-!
The resolver functions, one per Rust method of `WorkmanExtension`.
-/

/-- `WorkmanExtension::resolve_deno_binary`: `binary.path` verbatim when
present (the nested `if let Ok / if let Some / if let Some` early return is
the match on the composite), otherwise a PATH search for `deno`, otherwise
a failure naming the language-server id. -/
def resolve_deno_binary (language_server_id : String) (lsp : Option LspSettings)
    (worktree : Worktree) : Except String String :=
  match lsp.bind (fun s => s.binary.bind (fun b => b.path)) with
  | some path => .ok path
  | none =>
    match worktree.which "deno" with
    | some deno => .ok deno
    | none => .error (language_server_id ++ ": could not find deno on PATH")

/-- `WorkmanExtension::paths_from_root`: the fixed `lsp/server` layout under
a given root. -/
def paths_from_root (root : String) : String × String :=
  let deno_config := pathJoin (pathJoin (pathJoin root "lsp") "server") "deno.json"
  let server_path :=
    pathJoin (pathJoin (pathJoin (pathJoin root "lsp") "server") "src") "server.ts"
  (deno_config, server_path)

/-- `WorkmanExtension::paths_from_worktree`: fixed layout under the
worktree root, verified by attempting to read the script file. -/
def paths_from_worktree (worktree : Worktree) : Except String (String × String) :=
  let pair := paths_from_root worktree.root_path
  if (worktree.read_text_file "lsp/server/src/server.ts").isNone then
    .error ("Workman LSP not found at " ++ pair.2)
  else
    .ok pair

/-- The tail of `resolve_server_paths` after the settings branches: the
`WORKMAN_ROOT` environment variable, then the worktree default. -/
def server_paths_fallback (env_workman_root : Option String) (worktree : Worktree) :
    Except String (String × String) :=
  match env_workman_root with
  | some server_root => .ok (paths_from_root server_root)
  | none => paths_from_worktree worktree

/-- The `deno_config` binding of the `serverPath` branch: the `denoConfig`
string if present, otherwise the script path's grandparent joined with
`deno.json`, with the literal `deno.json` as the `unwrap_or_else` default
when no grandparent exists. -/
def deno_config_for (settings : Json) (server_path : String) : String :=
  match (settings.get "denoConfig").bind Json.as_str with
  | some config => config
  | none =>
    match (parentPath server_path).bind parentPath with
    | some gp => pathJoin gp "deno.json"
    | none => "deno.json"

/-- The settings-document branches of `resolve_server_paths`: `serverPath`
first, then `serverRoot`, then the fallback. -/
def resolve_server_paths_from_settings (settings : Json)
    (env_workman_root : Option String) (worktree : Worktree) :
    Except String (String × String) :=
  match (settings.get "serverPath").bind Json.as_str with
  | some server_path => .ok (deno_config_for settings server_path, server_path)
  | none =>
    match (settings.get "serverRoot").bind Json.as_str with
    | some server_root => .ok (paths_from_root server_root)
    | none => server_paths_fallback env_workman_root worktree

/-- `WorkmanExtension::resolve_server_paths`: `serverPath` (with
`denoConfig` or the grandparent-join default), then `serverRoot`, then the
environment variable, then the worktree convention. -/
def resolve_server_paths (lsp : Option LspSettings) (env_workman_root : Option String)
    (worktree : Worktree) : Except String (String × String) :=
  match lsp.bind (fun s => s.settings) with
  | some settings => resolve_server_paths_from_settings settings env_workman_root worktree
  | none => server_paths_fallback env_workman_root worktree

/-- The default argument vector built around the resolved paths. -/
def default_args (deno_config server_path : String) : List String :=
  ["run", "--allow-all", "--config", deno_config, server_path]

/-- `WorkmanExtension::language_server_command`: compose binary, paths,
arguments and environment; the three identical `vec![...]` arms of the Rust
nesting are `default_args`. -/
def language_server_command (language_server_id : String) (lsp : Option LspSettings)
    (env_workman_root : Option String) (platform : Os) (worktree : Worktree) :
    Except String Command := do
  let deno ← resolve_deno_binary language_server_id lsp worktree
  let pair ← resolve_server_paths lsp env_workman_root worktree
  let args :=
    match lsp with
    | some lsp_settings =>
      match lsp_settings.binary with
      | some binary =>
        match binary.arguments with
        | some arguments => arguments
        | none => default_args pair.1 pair.2
      | none => default_args pair.1 pair.2
    | none => default_args pair.1 pair.2
  let env :=
    match platform with
    | .mac => worktree.shell_env
    | .linux => worktree.shell_env
    | .windows => []
  pure ⟨deno, args, env⟩

/-- The five string-typed projections of the settings document that the
resolver actually consumes: `binary.path`, `binary.arguments`, and the
string values of `settings.serverPath`, `settings.serverRoot`,
`settings.denoConfig`. -/
def relevant_view (lsp : Option LspSettings) :
    Option String × Option (List String) × Option String × Option String × Option String :=
  (lsp.bind (fun s => s.binary.bind (fun b => b.path)),
   lsp.bind (fun s => s.binary.bind (fun b => b.arguments)),
   (lsp.bind (fun s => s.settings)).bind (fun st => (st.get "serverPath").bind Json.as_str),
   (lsp.bind (fun s => s.settings)).bind (fun st => (st.get "serverRoot").bind Json.as_str),
   (lsp.bind (fun s => s.settings)).bind (fun st => (st.get "denoConfig").bind Json.as_str))

/-- The argument vector as a function of the `binary.arguments` projection
and the resolved path pair (the nested match in `language_server_command`
collapsed). -/
def args_of (lsp : Option LspSettings) (pair : String × String) : List String :=
  match lsp.bind (fun s => s.binary.bind (fun b => b.arguments)) with
  | some arguments => arguments
  | none => default_args pair.1 pair.2

/-- The environment as a function of the platform and the worktree. -/
def env_of (platform : Os) (worktree : Worktree) : List (String × String) :=
  match platform with
  | .mac => worktree.shell_env
  | .linux => worktree.shell_env
  | .windows => []

/-- `language_server_command` unfolded: first the binary resolution, then
the path resolution, each short-circuiting on error, then the packaged
command. -/
theorem language_server_command_shape (language_server_id : String)
    (lsp : Option LspSettings) (env_workman_root : Option String) (platform : Os)
    (worktree : Worktree) :
    language_server_command language_server_id lsp env_workman_root platform worktree =
      match resolve_deno_binary language_server_id lsp worktree with
      | .error msg => .error msg
      | .ok deno =>
        match resolve_server_paths lsp env_workman_root worktree with
        | .error msg => .error msg
        | .ok pair => .ok ⟨deno, args_of lsp pair, env_of platform worktree⟩ := by
  unfold language_server_command
  cases hd : resolve_deno_binary language_server_id lsp worktree with
  | error msg => rfl
  | ok deno =>
    cases hs : resolve_server_paths lsp env_workman_root worktree with
    | error msg => rfl
    | ok pair =>
      rcases lsp with _ | ⟨_ | ⟨bp, _ | bargs⟩, s⟩ <;> rfl

/-- `resolve_deno_binary` depends on the settings document only through the
`binary.path` projection. -/
theorem resolve_deno_binary_congr (language_server_id : String)
    (lsp lsp' : Option LspSettings) (worktree : Worktree)
    (h : lsp.bind (fun s => s.binary.bind (fun b => b.path)) =
      lsp'.bind (fun s => s.binary.bind (fun b => b.path))) :
    resolve_deno_binary language_server_id lsp worktree =
      resolve_deno_binary language_server_id lsp' worktree := by
  unfold resolve_deno_binary
  rw [h]

/-- Case lemma: with no settings document, `resolve_server_paths` is the
environment/worktree fallback. -/
theorem resolve_server_paths_settings_none (lsp : Option LspSettings)
    (h : lsp.bind (fun s => s.settings) = none)
    (env_workman_root : Option String) (worktree : Worktree) :
    resolve_server_paths lsp env_workman_root worktree =
      server_paths_fallback env_workman_root worktree := by
  unfold resolve_server_paths
  rw [h]

/-- Case lemma: with a settings document, `resolve_server_paths` is the
settings-branch function. -/
theorem resolve_server_paths_settings_some (lsp : Option LspSettings) (st : Json)
    (h : lsp.bind (fun s => s.settings) = some st)
    (env_workman_root : Option String) (worktree : Worktree) :
    resolve_server_paths lsp env_workman_root worktree =
      resolve_server_paths_from_settings st env_workman_root worktree := by
  unfold resolve_server_paths
  rw [h]

/-- Case lemma: a string `serverPath` selects the explicit-path branch. -/
theorem from_settings_serverPath_some (st : Json) (P : String)
    (h : (st.get "serverPath").bind Json.as_str = some P)
    (env_workman_root : Option String) (worktree : Worktree) :
    resolve_server_paths_from_settings st env_workman_root worktree =
      .ok (deno_config_for st P, P) := by
  unfold resolve_server_paths_from_settings
  rw [h]

/-- Case lemma: no string `serverPath` but a string `serverRoot` selects the
fixed-layout branch. -/
theorem from_settings_serverRoot_some (st : Json) (R : String)
    (hsp : (st.get "serverPath").bind Json.as_str = none)
    (hsr : (st.get "serverRoot").bind Json.as_str = some R)
    (env_workman_root : Option String) (worktree : Worktree) :
    resolve_server_paths_from_settings st env_workman_root worktree =
      .ok (paths_from_root R) := by
  unfold resolve_server_paths_from_settings
  rw [hsp, hsr]

/-- Case lemma: no string `serverPath` and no string `serverRoot` falls
through to the environment/worktree fallback. -/
theorem from_settings_fallback (st : Json)
    (hsp : (st.get "serverPath").bind Json.as_str = none)
    (hsr : (st.get "serverRoot").bind Json.as_str = none)
    (env_workman_root : Option String) (worktree : Worktree) :
    resolve_server_paths_from_settings st env_workman_root worktree =
      server_paths_fallback env_workman_root worktree := by
  unfold resolve_server_paths_from_settings
  rw [hsp, hsr]

/-- `resolve_server_paths` depends on the settings document only through
the string values of `serverPath`, `serverRoot` and `denoConfig`. -/
theorem resolve_server_paths_congr (lsp lsp' : Option LspSettings)
    (env_workman_root : Option String) (worktree : Worktree)
    (hsp : (lsp.bind (fun s => s.settings)).bind
        (fun st => (st.get "serverPath").bind Json.as_str) =
      (lsp'.bind (fun s => s.settings)).bind
        (fun st => (st.get "serverPath").bind Json.as_str))
    (hsr : (lsp.bind (fun s => s.settings)).bind
        (fun st => (st.get "serverRoot").bind Json.as_str) =
      (lsp'.bind (fun s => s.settings)).bind
        (fun st => (st.get "serverRoot").bind Json.as_str))
    (hdc : (lsp.bind (fun s => s.settings)).bind
        (fun st => (st.get "denoConfig").bind Json.as_str) =
      (lsp'.bind (fun s => s.settings)).bind
        (fun st => (st.get "denoConfig").bind Json.as_str)) :
    resolve_server_paths lsp env_workman_root worktree =
      resolve_server_paths lsp' env_workman_root worktree := by
  rcases hA : lsp.bind (fun s => s.settings) with _ | st <;>
    rcases hB : lsp'.bind (fun s => s.settings) with _ | st' <;>
    rw [hA, hB] at hsp hsr hdc <;>
    simp only [Option.none_bind, Option.some_bind] at hsp hsr hdc
  · rw [resolve_server_paths_settings_none lsp hA env_workman_root worktree,
      resolve_server_paths_settings_none lsp' hB env_workman_root worktree]
  · rw [resolve_server_paths_settings_none lsp hA env_workman_root worktree,
      resolve_server_paths_settings_some lsp' st' hB env_workman_root worktree,
      from_settings_fallback st' hsp.symm hsr.symm]
  · rw [resolve_server_paths_settings_some lsp st hA env_workman_root worktree,
      resolve_server_paths_settings_none lsp' hB env_workman_root worktree,
      from_settings_fallback st hsp hsr]
  · rw [resolve_server_paths_settings_some lsp st hA env_workman_root worktree,
      resolve_server_paths_settings_some lsp' st' hB env_workman_root worktree]
    rcases hP : (st.get "serverPath").bind Json.as_str with _ | P
    · rcases hR : (st.get "serverRoot").bind Json.as_str with _ | R
      · rw [from_settings_fallback st hP hR,
          from_settings_fallback st' (hsp ▸ hP) (hsr ▸ hR)]
      · rw [from_settings_serverRoot_some st R hP hR,
          from_settings_serverRoot_some st' R (hsp ▸ hP) (hsr ▸ hR)]
    · rw [from_settings_serverPath_some st P hP,
        from_settings_serverPath_some st' P (hsp ▸ hP)]
      unfold deno_config_for
      rw [hdc]

/-- Claim C1: for every settings document providing a string `serverPath = P`
and no string `denoConfig`, server location resolution returns `P` as the
script path, and a config path equal to the grandparent directory of `P`
joined with `deno.json` when `P` has at least two parent directories
(`parentPath` twice succeeds), and the literal relative name `deno.json`
otherwise. -/
theorem claim1_serverPath_config (lsp : LspSettings) (st : Json) (P : String)
    (hset : lsp.settings = some st)
    (hsp : (st.get "serverPath").bind Json.as_str = some P)
    (hdc : (st.get "denoConfig").bind Json.as_str = none)
    (env_workman_root : Option String) (worktree : Worktree) :
    resolve_server_paths (some lsp) env_workman_root worktree =
      .ok ((match (parentPath P).bind parentPath with
            | some gp => pathJoin gp "deno.json"
            | none => "deno.json"), P) := by
  rw [resolve_server_paths_settings_some (some lsp) st
      (by simp only [Option.some_bind]; exact hset) env_workman_root worktree,
    from_settings_serverPath_some st P hsp env_workman_root worktree]
  unfold deno_config_for
  rw [hdc]

/-- Witness for C1: a concrete `serverPath` two levels below the server
root yields that root's `deno.json`. -/
theorem claim1_witness :
    resolve_server_paths
        (some ⟨none, some (.obj [("serverPath", .str "root/lsp/server/src/server.ts")])⟩)
        none ⟨"wt", fun _ => none, fun _ => none, []⟩ =
      .ok ("root/lsp/server/deno.json", "root/lsp/server/src/server.ts") :=
  claim1_serverPath_config
    ⟨none, some (.obj [("serverPath", .str "root/lsp/server/src/server.ts")])⟩
    (.obj [("serverPath", .str "root/lsp/server/src/server.ts")])
    "root/lsp/server/src/server.ts" rfl rfl rfl none
    ⟨"wt", fun _ => none, fun _ => none, []⟩

/-- Claim C2: with no string `serverPath` or `serverRoot` setting and the
environment variable unset, resolution returns the fixed-layout pair under
the worktree root when `lsp/server/src/server.ts` can be read, and
otherwise fails with an error message containing the computed script
path. -/
theorem claim2_default_convention (lsp : Option LspSettings) (worktree : Worktree)
    (hsp : (lsp.bind (fun s => s.settings)).bind
        (fun st => (st.get "serverPath").bind Json.as_str) = none)
    (hsr : (lsp.bind (fun s => s.settings)).bind
        (fun st => (st.get "serverRoot").bind Json.as_str) = none) :
    ((worktree.read_text_file "lsp/server/src/server.ts").isSome →
      resolve_server_paths lsp none worktree = .ok (paths_from_root worktree.root_path)) ∧
    (worktree.read_text_file "lsp/server/src/server.ts" = none →
      ∃ msg, resolve_server_paths lsp none worktree = .error msg ∧
        ∃ pre, msg = pre ++ (paths_from_root worktree.root_path).2) := by
  have hfall : resolve_server_paths lsp none worktree = paths_from_worktree worktree := by
    rcases hA : lsp.bind (fun s => s.settings) with _ | st
    · rw [resolve_server_paths_settings_none lsp hA none worktree]; rfl
    · rw [hA] at hsp hsr
      simp only [Option.some_bind] at hsp hsr
      rw [resolve_server_paths_settings_some lsp st hA none worktree,
        from_settings_fallback st hsp hsr]
      rfl
  constructor
  · intro hread
    rw [hfall]
    rcases hr : worktree.read_text_file "lsp/server/src/server.ts" with _ | v
    · rw [hr] at hread
      exact absurd hread (by simp)
    · unfold paths_from_worktree
      rw [hr]
      rfl
  · intro hread
    rw [hfall]
    refine ⟨"Workman LSP not found at " ++ (paths_from_root worktree.root_path).2, ?_,
      "Workman LSP not found at ", rfl⟩
    unfold paths_from_worktree
    rw [hread]
    rfl

/-- Witness for C2: with a readable script the fixed-layout pair is
returned; with an unreadable script the error names the computed script
path. -/
theorem claim2_witness :
    (resolve_server_paths none none ⟨"wt", fun _ => none, fun _ => some "", []⟩ =
      .ok ("wt/lsp/server/deno.json", "wt/lsp/server/src/server.ts")) ∧
    (∃ msg, resolve_server_paths none none ⟨"wt", fun _ => none, fun _ => none, []⟩ =
        .error msg ∧ ∃ pre, msg = pre ++ "wt/lsp/server/src/server.ts") :=
  ⟨(claim2_default_convention none ⟨"wt", fun _ => none, fun _ => some "", []⟩ rfl rfl).1 rfl,
   (claim2_default_convention none ⟨"wt", fun _ => none, fun _ => none, []⟩ rfl rfl).2 rfl⟩

/-- Claim C3: resolution with a string `serverRoot = R` (and no string
`serverPath`) and the environment variable unset equals resolution with no
settings overrides and the environment variable set to `R`; both are the
fixed-layout pair under `R`, and neither consults the worktree (the two
sides use arbitrary distinct worktrees). -/
theorem claim3_env_root_equivalence (R : String) (lspR : LspSettings) (st : Json)
    (hset : lspR.settings = some st)
    (hnsp : (st.get "serverPath").bind Json.as_str = none)
    (hsr : (st.get "serverRoot").bind Json.as_str = some R)
    (lsp0 : Option LspSettings)
    (h0sp : (lsp0.bind (fun s => s.settings)).bind
        (fun t => (t.get "serverPath").bind Json.as_str) = none)
    (h0sr : (lsp0.bind (fun s => s.settings)).bind
        (fun t => (t.get "serverRoot").bind Json.as_str) = none)
    (w w' : Worktree) :
    resolve_server_paths (some lspR) none w = resolve_server_paths lsp0 (some R) w' ∧
    resolve_server_paths (some lspR) none w = .ok (paths_from_root R) ∧
    paths_from_root R =
      (pathJoin (pathJoin (pathJoin R "lsp") "server") "deno.json",
       pathJoin (pathJoin (pathJoin (pathJoin R "lsp") "server") "src") "server.ts") := by
  have h1 : resolve_server_paths (some lspR) none w = .ok (paths_from_root R) := by
    rw [resolve_server_paths_settings_some (some lspR) st
        (by simp only [Option.some_bind]; exact hset) none w,
      from_settings_serverRoot_some st R hnsp hsr none w]
  have h2 : resolve_server_paths lsp0 (some R) w' = .ok (paths_from_root R) := by
    rcases hA : lsp0.bind (fun s => s.settings) with _ | st0
    · rw [resolve_server_paths_settings_none lsp0 hA (some R) w']; rfl
    · rw [hA] at h0sp h0sr
      simp only [Option.some_bind] at h0sp h0sr
      rw [resolve_server_paths_settings_some lsp0 st0 hA (some R) w',
        from_settings_fallback st0 h0sp h0sr]
      rfl
  exact ⟨h1.trans h2.symm, h1, rfl⟩

/-- Witness for C3 at `R = "R"`, with two different worktrees on the two
sides. -/
theorem claim3_witness :
    resolve_server_paths (some ⟨none, some (.obj [("serverRoot", .str "R")])⟩) none
        ⟨"w1", fun _ => none, fun _ => none, []⟩ =
      resolve_server_paths none (some "R") ⟨"w2", fun _ => none, fun _ => none, []⟩ ∧
    resolve_server_paths (some ⟨none, some (.obj [("serverRoot", .str "R")])⟩) none
        ⟨"w1", fun _ => none, fun _ => none, []⟩ =
      .ok ("R/lsp/server/deno.json", "R/lsp/server/src/server.ts") ∧
    paths_from_root "R" = ("R/lsp/server/deno.json", "R/lsp/server/src/server.ts") :=
  claim3_env_root_equivalence "R" ⟨none, some (.obj [("serverRoot", .str "R")])⟩
    (.obj [("serverRoot", .str "R")]) rfl rfl rfl none rfl rfl
    ⟨"w1", fun _ => none, fun _ => none, []⟩ ⟨"w2", fun _ => none, fun _ => none, []⟩

/-- Claim C4: a settings document whose binary sub-document has a `path`
field makes interpreter resolution return that string verbatim, and the
result does not depend on the worktree (so no PATH search is consulted). -/
theorem claim4_binary_path_override (language_server_id P : String)
    (lsp : LspSettings) (binary : BinarySettings)
    (hb : lsp.binary = some binary) (hp : binary.path = some P)
    (w w' : Worktree) :
    resolve_deno_binary language_server_id (some lsp) w = .ok P ∧
    resolve_deno_binary language_server_id (some lsp) w =
      resolve_deno_binary language_server_id (some lsp) w' := by
  have h : ∀ wt : Worktree,
      resolve_deno_binary language_server_id (some lsp) wt = .ok P := by
    intro wt
    unfold resolve_deno_binary
    simp only [Option.some_bind, hb, hp]
  exact ⟨h w, (h w).trans (h w').symm⟩

/-- Witness for C4: two worktrees, one of which would find a different
`deno` on PATH, both yield the override verbatim. -/
theorem claim4_witness :
    resolve_deno_binary "id" (some ⟨some ⟨some "/opt/deno", none⟩, none⟩)
        ⟨"w1", fun _ => none, fun _ => none, []⟩ = .ok "/opt/deno" ∧
    resolve_deno_binary "id" (some ⟨some ⟨some "/opt/deno", none⟩, none⟩)
        ⟨"w1", fun _ => none, fun _ => none, []⟩ =
      resolve_deno_binary "id" (some ⟨some ⟨some "/opt/deno", none⟩, none⟩)
        ⟨"w2", fun _ => some "/usr/bin/deno", fun _ => none, []⟩ :=
  claim4_binary_path_override "id" "/opt/deno" ⟨some ⟨some "/opt/deno", none⟩, none⟩
    ⟨some "/opt/deno", none⟩ rfl rfl ⟨"w1", fun _ => none, fun _ => none, []⟩
    ⟨"w2", fun _ => some "/usr/bin/deno", fun _ => none, []⟩

/-- Claim C5: with no `binary.path` and no `deno` on the search path,
interpreter resolution fails with an error containing the language-server
id, and the whole command resolution short-circuits with that same
error. -/
theorem claim5_binary_not_found (language_server_id : String) (lsp : Option LspSettings)
    (hp : lsp.bind (fun s => s.binary.bind (fun b => b.path)) = none)
    (w : Worktree) (hw : w.which "deno" = none)
    (env_workman_root : Option String) (platform : Os) :
    resolve_deno_binary language_server_id lsp w =
      .error (language_server_id ++ ": could not find deno on PATH") ∧
    (∃ tail, language_server_id ++ ": could not find deno on PATH" =
        language_server_id ++ tail) ∧
    language_server_command language_server_id lsp env_workman_root platform w =
      .error (language_server_id ++ ": could not find deno on PATH") := by
  have h1 : resolve_deno_binary language_server_id lsp w =
      .error (language_server_id ++ ": could not find deno on PATH") := by
    unfold resolve_deno_binary
    rw [hp, hw]
  refine ⟨h1, ⟨": could not find deno on PATH", rfl⟩, ?_⟩
  rw [language_server_command_shape, h1]

/-- Witness for C5 at a concrete id and an empty PATH. -/
theorem claim5_witness :
    resolve_deno_binary "workman" none ⟨"wt", fun _ => none, fun _ => none, []⟩ =
      .error ("workman" ++ ": could not find deno on PATH") ∧
    (∃ tail, "workman" ++ ": could not find deno on PATH" = "workman" ++ tail) ∧
    language_server_command "workman" none none .linux
        ⟨"wt", fun _ => none, fun _ => none, []⟩ =
      .error ("workman" ++ ": could not find deno on PATH") :=
  claim5_binary_not_found "workman" none rfl ⟨"wt", fun _ => none, fun _ => none, []⟩
    rfl none .linux

/-- Claim C6: when a settings document provides both a string `serverPath`
and a string `serverRoot`, the `serverPath` branch wins: the result is the
explicit-path pair computed from `serverPath` and `denoConfig` alone, and
agrees with any other document having the same `serverPath` and
`denoConfig` strings, under any environment variable and any worktree. -/
theorem claim6_serverPath_precedence (P R : String) (lsp lsp' : LspSettings)
    (st st' : Json)
    (hset : lsp.settings = some st) (hset' : lsp'.settings = some st')
    (hsp : (st.get "serverPath").bind Json.as_str = some P)
    (hsp' : (st'.get "serverPath").bind Json.as_str = some P)
    (_hsr : (st.get "serverRoot").bind Json.as_str = some R)
    (hdc : (st.get "denoConfig").bind Json.as_str = (st'.get "denoConfig").bind Json.as_str)
    (e e' : Option String) (w w' : Worktree) :
    resolve_server_paths (some lsp) e w = resolve_server_paths (some lsp') e' w' ∧
    resolve_server_paths (some lsp) e w = .ok (deno_config_for st P, P) := by
  have h1 : resolve_server_paths (some lsp) e w = .ok (deno_config_for st P, P) := by
    rw [resolve_server_paths_settings_some (some lsp) st
        (by simp only [Option.some_bind]; exact hset) e w,
      from_settings_serverPath_some st P hsp e w]
  have hcfg : deno_config_for st P = deno_config_for st' P := by
    unfold deno_config_for
    rw [hdc]
  have h2 : resolve_server_paths (some lsp') e' w' = .ok (deno_config_for st P, P) := by
    rw [resolve_server_paths_settings_some (some lsp') st'
        (by simp only [Option.some_bind]; exact hset') e' w',
      from_settings_serverPath_some st' P hsp' e' w', hcfg]
  exact ⟨h1.trans h2.symm, h1⟩

/-- Witness for C6: `serverPath` and `serverRoot` both present; the second
document has no `serverRoot`, a different environment variable and a
different worktree, yet both resolve to the explicit-path pair. -/
theorem claim6_witness :
    resolve_server_paths
        (some ⟨none, some (.obj [("serverPath", .str "a/b/c"), ("serverRoot", .str "X")])⟩)
        (some "E") ⟨"w1", fun _ => none, fun _ => none, []⟩ =
      resolve_server_paths (some ⟨none, some (.obj [("serverPath", .str "a/b/c")])⟩)
        none ⟨"w2", fun _ => none, fun _ => some "", []⟩ ∧
    resolve_server_paths
        (some ⟨none, some (.obj [("serverPath", .str "a/b/c"), ("serverRoot", .str "X")])⟩)
        (some "E") ⟨"w1", fun _ => none, fun _ => none, []⟩ =
      .ok ("a/deno.json", "a/b/c") :=
  claim6_serverPath_precedence "a/b/c" "X"
    ⟨none, some (.obj [("serverPath", .str "a/b/c"), ("serverRoot", .str "X")])⟩
    ⟨none, some (.obj [("serverPath", .str "a/b/c")])⟩
    (.obj [("serverPath", .str "a/b/c"), ("serverRoot", .str "X")])
    (.obj [("serverPath", .str "a/b/c")])
    rfl rfl rfl rfl rfl rfl (some "E") none
    ⟨"w1", fun _ => none, fun _ => none, []⟩ ⟨"w2", fun _ => none, fun _ => some "", []⟩

/-- Inversion: a successful command resolution comes from successful binary
and path resolutions, and packages `args_of` and `env_of`. -/
theorem language_server_command_ok (language_server_id : String) (lsp : Option LspSettings)
    (env_workman_root : Option String) (platform : Os) (w : Worktree) (cmd : Command)
    (hcmd : language_server_command language_server_id lsp env_workman_root platform w =
      .ok cmd) :
    ∃ deno pair, resolve_deno_binary language_server_id lsp w = .ok deno ∧
      resolve_server_paths lsp env_workman_root w = .ok pair ∧
      cmd = ⟨deno, args_of lsp pair, env_of platform w⟩ := by
  cases hd : resolve_deno_binary language_server_id lsp w with
  | error msg =>
    have hbad : language_server_command language_server_id lsp env_workman_root platform w =
        .error msg := by
      rw [language_server_command_shape, hd]
    rw [hcmd] at hbad
    exact Except.noConfusion hbad
  | ok deno =>
    cases hs : resolve_server_paths lsp env_workman_root w with
    | error msg =>
      have hbad : language_server_command language_server_id lsp env_workman_root platform w =
          .error msg := by
        rw [language_server_command_shape, hd, hs]
      rw [hcmd] at hbad
      exact Except.noConfusion hbad
    | ok pair =>
      have heq : language_server_command language_server_id lsp env_workman_root platform w =
          .ok (⟨deno, args_of lsp pair, env_of platform w⟩ : Command) := by
        rw [language_server_command_shape, hd, hs]
      rw [hcmd] at heq
      injection heq with h
      exact ⟨deno, pair, rfl, rfl, h⟩

/-- Claim C7: when the binary sub-document provides an `arguments`
sequence, the resolved argument vector is exactly that sequence, whatever
the resolved config and script paths were. -/
theorem claim7_arguments_override (language_server_id : String) (lsp : Option LspSettings)
    (args : List String)
    (ha : lsp.bind (fun s => s.binary.bind (fun b => b.arguments)) = some args)
    (env_workman_root : Option String) (platform : Os) (w : Worktree) (cmd : Command)
    (hcmd : language_server_command language_server_id lsp env_workman_root platform w =
      .ok cmd) :
    cmd.args = args := by
  obtain ⟨deno, pair, hd, hs, hc⟩ :=
    language_server_command_ok language_server_id lsp env_workman_root platform w cmd hcmd
  rw [hc]
  show args_of lsp pair = args
  unfold args_of
  rw [ha]

/-- Witness for C7: an explicit two-element argument override survives
verbatim. -/
theorem claim7_witness :
    Command.args ⟨"deno", ["x", "y"], []⟩ = ["x", "y"] :=
  claim7_arguments_override "id" (some ⟨some ⟨some "deno", some ["x", "y"]⟩, none⟩)
    ["x", "y"] rfl none .windows ⟨"wt", fun _ => none, fun _ => some "", []⟩
    ⟨"deno", ["x", "y"], []⟩ rfl

/-- Claim C8: when `binary.arguments` is absent, the resolved argument
vector is exactly `["run", "--allow-all", "--config", configPath,
scriptPath]` with the pair produced by server location resolution. -/
theorem claim8_default_arguments (language_server_id : String) (lsp : Option LspSettings)
    (ha : lsp.bind (fun s => s.binary.bind (fun b => b.arguments)) = none)
    (env_workman_root : Option String) (platform : Os) (w : Worktree)
    (pq : String × String)
    (hsrv : resolve_server_paths lsp env_workman_root w = .ok pq)
    (cmd : Command)
    (hcmd : language_server_command language_server_id lsp env_workman_root platform w =
      .ok cmd) :
    cmd.args = ["run", "--allow-all", "--config", pq.1, pq.2] := by
  obtain ⟨deno, pair, hd, hs, hc⟩ :=
    language_server_command_ok language_server_id lsp env_workman_root platform w cmd hcmd
  rw [hsrv] at hs
  injection hs with hpq
  rw [hc]
  show args_of lsp pair = _
  unfold args_of
  rw [ha, hpq]
  rfl

/-- Witness for C8: no overrides at all gives the five default arguments
around the worktree-convention paths. -/
theorem claim8_witness :
    Command.args ⟨"/bin/deno",
        ["run", "--allow-all", "--config", "wt/lsp/server/deno.json",
         "wt/lsp/server/src/server.ts"], []⟩ =
      ["run", "--allow-all", "--config", "wt/lsp/server/deno.json",
       "wt/lsp/server/src/server.ts"] :=
  claim8_default_arguments "id" none rfl none .mac
    ⟨"wt", fun n => if n = "deno" then some "/bin/deno" else none, fun _ => some "", []⟩
    ("wt/lsp/server/deno.json", "wt/lsp/server/src/server.ts") rfl
    ⟨"/bin/deno",
      ["run", "--allow-all", "--config", "wt/lsp/server/deno.json",
       "wt/lsp/server/src/server.ts"], []⟩ rfl

/-- Claim C9: the resolved environment is empty on the Windows platform
identifier and the worktree's shell environment on either Unix-like
identifier, for every settings document. -/
theorem claim9_platform_environment (language_server_id : String) (lsp : Option LspSettings)
    (env_workman_root : Option String) (platform : Os) (w : Worktree) (cmd : Command)
    (hcmd : language_server_command language_server_id lsp env_workman_root platform w =
      .ok cmd) :
    (platform = .windows → cmd.env = []) ∧
    (platform = .mac → cmd.env = w.shell_env) ∧
    (platform = .linux → cmd.env = w.shell_env) := by
  obtain ⟨deno, pair, hd, hs, hc⟩ :=
    language_server_command_ok language_server_id lsp env_workman_root platform w cmd hcmd
  rw [hc]
  refine ⟨?_, ?_, ?_⟩ <;> intro hp <;> subst hp <;> rfl

/-- Witness for C9: the same worktree yields an empty environment on
Windows and its shell environment on Mac. -/
theorem claim9_witness :
    Command.env ⟨"/bin/deno",
        ["run", "--allow-all", "--config", "wt/lsp/server/deno.json",
         "wt/lsp/server/src/server.ts"], []⟩ = [] ∧
    Command.env ⟨"/bin/deno",
        ["run", "--allow-all", "--config", "wt/lsp/server/deno.json",
         "wt/lsp/server/src/server.ts"], [("PATH", "/p")]⟩ = [("PATH", "/p")] :=
  ⟨(claim9_platform_environment "id" none none .windows
    ⟨"wt", fun n => if n = "deno" then some "/bin/deno" else none,
      fun _ => some "", [("PATH", "/p")]⟩
    ⟨"/bin/deno",
      ["run", "--allow-all", "--config", "wt/lsp/server/deno.json",
       "wt/lsp/server/src/server.ts"], []⟩ rfl).1 rfl,
   (claim9_platform_environment "id" none none .mac
    ⟨"wt", fun n => if n = "deno" then some "/bin/deno" else none,
      fun _ => some "", [("PATH", "/p")]⟩
    ⟨"/bin/deno",
      ["run", "--allow-all", "--config", "wt/lsp/server/deno.json",
       "wt/lsp/server/src/server.ts"], [("PATH", "/p")]⟩ rfl).2.1 rfl⟩

/-- Claim C10: the whole resolution depends on the settings input only
through the five string-typed projections in `relevant_view`; hence a
failed settings lookup, or a `serverPath`, `serverRoot` or `denoConfig`
value that is present but not a string, behaves exactly as if the setting
were absent and is never surfaced as an error. -/
theorem claim10_lenient_settings (lsp lsp' : Option LspSettings)
    (h : relevant_view lsp = relevant_view lsp')
    (language_server_id : String) (env_workman_root : Option String) (platform : Os)
    (w : Worktree) :
    language_server_command language_server_id lsp env_workman_root platform w =
      language_server_command language_server_id lsp' env_workman_root platform w := by
  have h1 : lsp.bind (fun s => s.binary.bind (fun b => b.path)) =
      lsp'.bind (fun s => s.binary.bind (fun b => b.path)) :=
    congrArg (fun t => t.1) h
  have h2 : lsp.bind (fun s => s.binary.bind (fun b => b.arguments)) =
      lsp'.bind (fun s => s.binary.bind (fun b => b.arguments)) :=
    congrArg (fun t => t.2.1) h
  have h3 : (lsp.bind (fun s => s.settings)).bind
        (fun st => (st.get "serverPath").bind Json.as_str) =
      (lsp'.bind (fun s => s.settings)).bind
        (fun st => (st.get "serverPath").bind Json.as_str) :=
    congrArg (fun t => t.2.2.1) h
  have h4 : (lsp.bind (fun s => s.settings)).bind
        (fun st => (st.get "serverRoot").bind Json.as_str) =
      (lsp'.bind (fun s => s.settings)).bind
        (fun st => (st.get "serverRoot").bind Json.as_str) :=
    congrArg (fun t => t.2.2.2.1) h
  have h5 : (lsp.bind (fun s => s.settings)).bind
        (fun st => (st.get "denoConfig").bind Json.as_str) =
      (lsp'.bind (fun s => s.settings)).bind
        (fun st => (st.get "denoConfig").bind Json.as_str) :=
    congrArg (fun t => t.2.2.2.2) h
  have hargs : args_of lsp = args_of lsp' := by
    funext pair
    unfold args_of
    rw [h2]
  rw [language_server_command_shape, language_server_command_shape,
    resolve_deno_binary_congr language_server_id lsp lsp' w h1,
    resolve_server_paths_congr lsp lsp' env_workman_root w h3 h4 h5, hargs]

/-- Witness for C10: a failed settings lookup and a document whose three
server keys hold non-string values resolve identically. -/
theorem claim10_witness :
    language_server_command "id" none none .mac ⟨"wt", fun _ => none, fun _ => none, []⟩ =
      language_server_command "id"
        (some ⟨some ⟨none, none⟩,
          some (.obj [("serverPath", .other), ("serverRoot", .obj []),
            ("denoConfig", .other)])⟩)
        none .mac ⟨"wt", fun _ => none, fun _ => none, []⟩ :=
  claim10_lenient_settings none
    (some ⟨some ⟨none, none⟩,
      some (.obj [("serverPath", .other), ("serverRoot", .obj []), ("denoConfig", .other)])⟩)
    rfl "id" none .mac ⟨"wt", fun _ => none, fun _ => none, []⟩

end Workman
